import Mathlib

/-
Verification of the HammerTech user-upload utility (src/app.py).

The program reads spreadsheet rows, maps each row to a JSON payload for one
of three resource kinds (Users, Projects, Employer Profiles), and POSTs each
payload to a region-specific API, keeping per-run counters of processed,
succeeded and failed rows.

The embedding below translates the relevant Python functions and the three
upload loops into Lean.  Spreadsheet cell values (strings, numbers, or empty
cells, which openpyxl yields as None) become the `Cell` type; Python
truthiness, `str(...)` coercion and the `x or ""` idiom become explicit
functions; the HTTP layer becomes an oracle parameter so that the loop's
behaviour can be stated for every possible sequence of responses.
-/

namespace HammerTech

/-- A spreadsheet cell value as yielded by `sheet.iter_rows(values_only=True)`:
`blank` is Python `None` (an empty cell), otherwise a string or a number. -/
inductive Cell where
  | blank
  | str (s : String)
  | num (n : Int)
deriving Repr, DecidableEq

/-- Python truthiness of a cell value: `None`, `""` and `0` are falsy. -/
def Cell.truthy : Cell → Bool
  | .blank => false
  | .str s => s ≠ ""
  | .num n => n ≠ 0

/-- Python `str(x)` on a cell value. -/
def pyStr : Cell → String
  | .blank => "None"
  | .str s => s
  | .num n => toString n

/-- The idiom `str(x) if x is not None else ""` used for phone numbers,
identifiers, ABNs and postal codes. -/
def strIfPresent (c : Cell) : String :=
  if c = .blank then "" else pyStr c

/-- The Python idiom `x or ""`: keep the value when truthy, else the empty
string. -/
def orEmpty (c : Cell) : Cell :=
  if c.truthy then c else .str ""

/-- Python `row[k]`: `IndexError` when `k` is out of range. -/
def rowGet : List Cell → Nat → Except Unit Cell
  | [], _ => .error ()
  | c :: _, 0 => .ok c
  | _ :: rest, k + 1 => rowGet rest k

/-- Python `row[k] if len(row) > k else default`. -/
def rowGetD : List Cell → Nat → Cell → Cell
  | [], _, d => d
  | c :: _, 0, _ => c
  | _ :: rest, k + 1, d => rowGetD rest k d

-- ---------- payload shapes ----------

/-- Payload built in the Users loop (app.py lines 261-269). -/
structure UserPayload where
  name : Cell
  title : Cell
  mobile : String
  email : Cell
  internalIdentifier : String
  roleNames : List String
  userProjectIds : List Cell
deriving Repr, DecidableEq

structure SiteTimingEntry where
  dayOfWeek : String
  startTime : String
  endTime : String
deriving Repr, DecidableEq

/-- Payload built in the Projects loop (app.py lines 317-363); field order as
in the source dict. -/
structure ProjectPayload where
  isArchived : Bool
  name : Cell
  siteAddress : Cell
  regionId : Cell
  state : Cell
  timeZoneString : Cell
  country : Cell
  internalIdentifier : Cell
  siteTiming : List SiteTimingEntry
deriving Repr, DecidableEq

structure Address where
  addressType : String
  streetAddress : Cell
  suburb : Cell
  state : Cell
  postCode : String
  country : Cell
deriving Repr, DecidableEq

/-- Payload built in the Employer Profiles loop (app.py lines 428-442). -/
structure EmployerPayload where
  businessName : Cell
  abn : String
  addresses : List Address
  internalIdentifier : String
deriving Repr, DecidableEq

inductive Payload where
  | user (p : UserPayload)
  | project (p : ProjectPayload)
  | employer (p : EmployerPayload)
deriving Repr, DecidableEq

/-- The hard-coded `siteTiming` list attached to every project payload. -/
def fixedSiteTiming : List SiteTimingEntry :=
  [ ⟨"Wednesday", "07:00:00", "17:00:00"⟩,
    ⟨"Thursday", "07:00:00", "17:00:00"⟩,
    ⟨"Friday", "07:00:00", "17:00:00"⟩,
    ⟨"Saturday", "07:00:00", "17:00:00"⟩,
    ⟨"Sunday", "07:00:00", "17:00:00"⟩,
    ⟨"Monday", "07:00:00", "17:00:00"⟩,
    ⟨"Tuesday", "07:00:00", "17:00:00"⟩ ]

-- ---------- row -> payload mapping (the bodies of the three loops) ----------

/-- Users loop, lines 239-269: read the six columns (Python raises on a short
row, since the reads precede the skip check), skip when the email cell is
`None`, otherwise build the user payload. -/
def mapUserRow (row : List Cell) : Except Unit (Option Payload) := do
  let email_cell ← rowGet row 0
  let name ← rowGet row 1
  let mobile ← rowGet row 2
  let title ← rowGet row 3
  let internalIdentifier ← rowGet row 4
  let user_project_ids ← rowGet row 5
  if email_cell = .blank then
    return none
  let mobile_str := strIfPresent mobile
  let internalIdentifier_str := strIfPresent internalIdentifier
  let role_names : List String := ["safetymanager"]
  let user_project_ids_list : List Cell :=
    if user_project_ids = .blank then [] else [user_project_ids]
  return some (Payload.user {
    name := orEmpty name
    title := orEmpty title
    mobile := mobile_str
    email := orEmpty email_cell
    internalIdentifier := internalIdentifier_str
    roleNames := role_names
    userProjectIds := user_project_ids_list })

/-- Projects loop, lines 305-363: read the seven columns, skip when
`not any([...])` (all seven falsy), otherwise build the project payload. -/
def mapProjectRow (row : List Cell) : Except Unit (Option Payload) := do
  let ProjectName ← rowGet row 0
  let country ← rowGet row 1
  let siteAddress ← rowGet row 2
  let timeZoneString ← rowGet row 3
  let state ← rowGet row 4
  let internalid ← rowGet row 5
  let regionId ← rowGet row 6
  if !(ProjectName.truthy || country.truthy || siteAddress.truthy ||
       timeZoneString.truthy || state.truthy || internalid.truthy ||
       regionId.truthy) then
    return none
  return some (Payload.project {
    isArchived := false
    name := ProjectName
    siteAddress := siteAddress
    regionId := regionId
    state := state
    timeZoneString := timeZoneString
    country := country
    internalIdentifier := internalid
    siteTiming := fixedSiteTiming })

/-- Employer Profiles loop, lines 398-442: read columns 0-6 (raises on rows
shorter than 7), column 7 defaults to `None` when absent, skip when all eight
are falsy, otherwise build the employer-profile payload. -/
def mapEmployerRow (row : List Cell) : Except Unit (Option Payload) := do
  let business_name ← rowGet row 0
  let abn ← rowGet row 1
  let streetAddress ← rowGet row 2
  let city ← rowGet row 3
  let state ← rowGet row 4
  let postal_code ← rowGet row 5
  let country ← rowGet row 6
  let internalIdentifier := rowGetD row 7 .blank
  if !(business_name.truthy || abn.truthy || streetAddress.truthy ||
       city.truthy || state.truthy || postal_code.truthy ||
       country.truthy || internalIdentifier.truthy) then
    return none
  let internalIdentifier_str := strIfPresent internalIdentifier
  let abn_str := strIfPresent abn
  let post_code_str := strIfPresent postal_code
  return some (Payload.employer {
    businessName := orEmpty business_name
    abn := abn_str
    addresses := [{
      addressType := "Physical"
      streetAddress := orEmpty streetAddress
      suburb := orEmpty city
      state := orEmpty state
      postCode := if post_code_str = "" then "" else post_code_str
      country := orEmpty country }]
    internalIdentifier := internalIdentifier_str })

/-- Dispatch on `upload_type` exactly as the if/elif/else at lines 234, 300,
393: any string other than "Users" and "Projects" takes the Employer
Profiles branch. -/
def mapRow (upload_type : String) (row : List Cell) : Except Unit (Option Payload) :=
  if upload_type = "Users" then mapUserRow row
  else if upload_type = "Projects" then mapProjectRow row
  else mapEmployerRow row

-- ---------- HTTP layer, auth, endpoints ----------

/-- Outcome of one `requests.post` to a resource endpoint: a response with a
status code and a body text, or a raised exception (timeout, DNS, refused
connection). -/
inductive HttpResult where
  | resp (status : Nat) (body : String)
  | exn
deriving Repr, DecidableEq

/-- Response of the auth endpoint, with its body already parsed as a JSON
object (a key/value list). -/
structure AuthHttpResponse where
  status : Nat
  json : List (String × String)
deriving Repr, DecidableEq

/-- Outcome of the `requests.post` inside `get_token`. -/
inductive AuthHttpResult where
  | ok (r : AuthHttpResponse)
  | exn
deriving Repr, DecidableEq

/-- `get_token` (app.py lines 23-31), with the network modelled by the given
outcome: a raised request exception propagates; `r.raise_for_status()` raises
`HTTPError` exactly when the status is in 400-599; then the parsed body must
contain a `"token"` key. -/
def get_token (resp : AuthHttpResult) : Except String String :=
  match resp with
  | .exn => .error "requests exception"
  | .ok r =>
    if 400 ≤ r.status ∧ r.status < 600 then .error "HTTPError"
    else
      match r.json.lookup "token" with
      | some t => .ok t
      | none => .error "No token found in response. Check credentials / tenant."

/-- `get_endpoints` (app.py lines 8-20): region name to (auth endpoint, API
base); the `else` branch is the Europe/UK pair. -/
def get_endpoints (region : String) : String × String :=
  if region = "North America" then
    ("https://us-auth.hammertechonline.com/api/login/generatetoken",
     "https://us-api.hammertechonline.com/api/v1")
  else if region = "Asia/Australia/NZ" then
    ("https://au-auth.hammertechonline.com/api/login/generatetoken",
     "https://au-api.hammertechonline.com/api/v1")
  else
    ("https://eu-auth.hammertechonline.com/api/login/generatetoken",
     "https://eu-api.hammertechonline.com/api/v1")

/-- The three resource endpoints derived from the API base (lines 81-83). -/
def user_endpoint_of (api_base : String) : String := api_base ++ "/workerprofiles"

def project_endpoint_of (api_base : String) : String := api_base ++ "/projects"

def employer_endpoint_of (api_base : String) : String := api_base ++ "/EmployerProfiles"

/-- Endpoint selection in `post_to_api` (lines 48-53): the `else` branch is
Employer Profiles. -/
def select_endpoint (upload_type user_endpoint project_endpoint employer_endpoint : String) :
    String :=
  if upload_type = "Users" then user_endpoint
  else if upload_type = "Projects" then project_endpoint
  else employer_endpoint

/-- `post_to_api` (lines 34-57), with the network modelled by `http`, a
function from (endpoint, Authorization header, payload) to an outcome.  A
raised exception propagates (`.error`); otherwise the function returns the
raw `(r.status_code, r.text)` pair without inspecting the status. -/
def post_to_api (token : String) (payload : Payload)
    (upload_type user_endpoint project_endpoint employer_endpoint : String)
    (http : String → String → Payload → HttpResult) : Except Unit (Nat × String) :=
  let endpoint := select_endpoint upload_type user_endpoint project_endpoint employer_endpoint
  match http endpoint ("Bearer " ++ token) payload with
  | .exn => .error ()
  | .resp s b => .ok (s, b)

-- ---------- the run loop ----------

/-- The mutable counters and log of one run (lines 225-228), plus `attempts`,
a ghost counter of `post_to_api` calls used only in specifications. -/
structure RunState where
  row_count : Nat
  success_count : Nat
  fail_count : Nat
  logs : List String
  attempts : Nat
deriving Repr, DecidableEq

def initState : RunState := ⟨0, 0, 0, [], 0⟩

/-- Everything the loop body reads but never writes: token, upload type, the
three endpoints, the per-row network behaviour, and the configured start
row. -/
structure RunCtx where
  token : String
  upload_type : String
  user_endpoint : String
  project_endpoint : String
  employer_endpoint : String
  http : Nat → String → String → Payload → HttpResult
  start_row : Nat

/-- The noun used in the per-row log lines ("user" / "project" /
"employer profile"). -/
def sendingNoun (upload_type : String) : String :=
  if upload_type = "Users" then "user"
  else if upload_type = "Projects" then "project"
  else "employer profile"

/-- The name interpolated into the "Sending ..." log line: the raw `name`
cell (column 1) for Users, the raw column-0 cell otherwise. -/
def logDisplay (upload_type : String) (row : List Cell) : String :=
  if upload_type = "Users" then pyStr (rowGetD row 1 .blank)
  else pyStr (rowGetD row 0 .blank)

def sendLine (upload_type : String) (i : Nat) (row : List Cell) : String :=
  "Row " ++ toString i ++ ": Sending " ++ sendingNoun upload_type ++ " " ++
    logDisplay upload_type row ++ "..."

def successLine (i status : Nat) : String :=
  "Row " ++ toString i ++ ": Success (HTTP " ++ toString status ++ ")."

def failLine (i status : Nat) (body : String) : String :=
  "Row " ++ toString i ++ ": Failed (HTTP " ++ toString status ++ "). Response: " ++ body

def exnLine (upload_type : String) (i : Nat) : String :=
  "Row " ++ toString i ++ ": Error sending " ++ sendingNoun upload_type ++ "."

/-- One iteration of the upload loop (the shared shape of lines 235-297,
301-390 and 394-469): skip rows before `start_row`; run the row mapping (its
exception propagates, since the column reads and skip checks sit outside the
`try`); on a skip leave the state untouched; otherwise count the row, log the
send, call `post_to_api` inside `try`, classify 2xx as success and everything
else as failure, and recover from a raised exception as a failure. -/
def stepRow (ctx : RunCtx) (i : Nat) (row : List Cell) (st : RunState) :
    Except Unit RunState :=
  if i < ctx.start_row then .ok st
  else
    match mapRow ctx.upload_type row with
    | .error e => .error e
    | .ok none => .ok st
    | .ok (some payload) =>
      match post_to_api ctx.token payload ctx.upload_type ctx.user_endpoint
          ctx.project_endpoint ctx.employer_endpoint (ctx.http i) with
      | .ok (status_code, response_text) =>
        if 200 ≤ status_code ∧ status_code < 300 then
          .ok { st with
            row_count := st.row_count + 1
            success_count := st.success_count + 1
            logs := st.logs ++ [sendLine ctx.upload_type i row, successLine i status_code]
            attempts := st.attempts + 1 }
        else
          .ok { st with
            row_count := st.row_count + 1
            fail_count := st.fail_count + 1
            logs := st.logs ++ [sendLine ctx.upload_type i row,
                                failLine i status_code response_text]
            attempts := st.attempts + 1 }
      | .error _ =>
        .ok { st with
          row_count := st.row_count + 1
          fail_count := st.fail_count + 1
          logs := st.logs ++ [sendLine ctx.upload_type i row, exnLine ctx.upload_type i]
          attempts := st.attempts + 1 }

/-- `for i, row in enumerate(rows, start=1)`: iterate `stepRow` over the rows;
an uncaught exception aborts the remaining iterations. -/
def runLoop (ctx : RunCtx) : Nat → List (List Cell) → RunState → Except Unit RunState
  | _, [], st => .ok st
  | i, row :: rest, st =>
    match stepRow ctx i row st with
    | .error e => .error e
    | .ok st1 => runLoop ctx (i + 1) rest st1

/-- Outcome of one whole run: authentication failure stops the run before the
counters are even created (`st.stop()` at line 205); an uncaught exception in
the loop aborts the script; otherwise the run completes with its final
state. -/
inductive RunOutcome where
  | authFailed (msg : String)
  | rowException
  | completed (st : RunState)
deriving Repr, DecidableEq

/-- The main logic after the pre-flight checks (lines 194-476): authenticate,
then iterate the rows of the selected sheet from row 1, and expose the final
counters and log. -/
def runUpload (upload_type : String) (authResp : AuthHttpResult)
    (http : Nat → String → String → Payload → HttpResult)
    (user_endpoint project_endpoint employer_endpoint : String)
    (start_row : Nat) (rows : List (List Cell)) : RunOutcome :=
  match get_token authResp with
  | .error e => .authFailed e
  | .ok token =>
    let ctx : RunCtx :=
      ⟨token, upload_type, user_endpoint, project_endpoint, employer_endpoint,
        http, start_row⟩
    match runLoop ctx 1 rows initState with
    | .error _ => .rowException
    | .ok st => .completed st

-- ---------- helper lemmas about the loop body ----------

theorem stepRow_pre (ctx : RunCtx) (i : Nat) (row : List Cell) (st : RunState)
    (h : i < ctx.start_row) : stepRow ctx i row st = .ok st := by
  simp [stepRow, h]

theorem stepRow_skip (ctx : RunCtx) (i : Nat) (row : List Cell) (st : RunState)
    (hge : ctx.start_row ≤ i) (hmap : mapRow ctx.upload_type row = .ok none) :
    stepRow ctx i row st = .ok st := by
  simp [stepRow, Nat.not_lt.mpr hge, hmap]

theorem stepRow_inv (ctx : RunCtx) (i : Nat) (row : List Cell) (st st1 : RunState)
    (h : stepRow ctx i row st = .ok st1)
    (hinv : st.success_count + st.fail_count = st.row_count) :
    st1.success_count + st1.fail_count = st1.row_count := by
  unfold stepRow at h
  split at h
  · cases h; exact hinv
  · split at h
    · cases h
    · cases h; exact hinv
    · split at h
      · split at h
        · cases h; simp; omega
        · cases h; simp; omega
      · cases h; simp; omega

theorem stepRow_counts (ctx : RunCtx) (i : Nat) (row : List Cell)
    (st st1 : RunState) (p : Payload)
    (hge : ctx.start_row ≤ i) (hmap : mapRow ctx.upload_type row = .ok (some p))
    (h : stepRow ctx i row st = .ok st1) :
    st1.attempts = st.attempts + 1 ∧ st1.row_count = st.row_count + 1 ∧
      st1.success_count + st1.fail_count = st.success_count + st.fail_count + 1 := by
  unfold stepRow at h
  rw [if_neg (Nat.not_lt.mpr hge), hmap] at h
  split at h
  · rename_i heq; simp at heq
  · rename_i heq; simp at heq
  · rename_i payload heq
    split at h
    · split at h
      · cases h; simp; omega
      · cases h; simp; omega
    · cases h; simp; omega

theorem runLoop_inv (ctx : RunCtx) (rows : List (List Cell)) :
    ∀ (i : Nat) (st st1 : RunState), runLoop ctx i rows st = .ok st1 →
      st.success_count + st.fail_count = st.row_count →
      st1.success_count + st1.fail_count = st1.row_count := by
  induction rows with
  | nil =>
    intro i st st1 h hinv
    cases h; exact hinv
  | cons row rest ih =>
    intro i st st1 h hinv
    unfold runLoop at h
    cases hstep : stepRow ctx i row st with
    | error e => rw [hstep] at h; cases h
    | ok stMid =>
      rw [hstep] at h
      exact ih _ _ _ h (stepRow_inv _ _ _ _ _ hstep hinv)

theorem ok_bind {ε α β : Type} (a : α) (f : α → Except ε β) :
    (Except.ok a : Except ε α) >>= f = f a := rfl

theorem pure_eq_ok {ε α : Type} (a : α) : (pure a : Except ε α) = Except.ok a := rfl

theorem error_bind {ε α β : Type} (e : ε) (f : α → Except ε β) :
    (Except.error e : Except ε α) >>= f = Except.error e := rfl

theorem stepRow_map_error (ctx : RunCtx) (i : Nat) (row : List Cell)
    (st : RunState) (e : Unit)
    (hge : ctx.start_row ≤ i) (hmap : mapRow ctx.upload_type row = .error e) :
    stepRow ctx i row st = .error e := by
  unfold stepRow
  rw [if_neg (Nat.not_lt.mpr hge), hmap]

theorem stepRow_upload_exn (ctx : RunCtx) (i : Nat) (row : List Cell)
    (st : RunState) (p : Payload)
    (hge : ctx.start_row ≤ i) (hmap : mapRow ctx.upload_type row = .ok (some p))
    (hexn : ∀ ep hd pl, ctx.http i ep hd pl = HttpResult.exn) :
    stepRow ctx i row st = .ok { st with
      row_count := st.row_count + 1
      fail_count := st.fail_count + 1
      logs := st.logs ++ [sendLine ctx.upload_type i row, exnLine ctx.upload_type i]
      attempts := st.attempts + 1 } := by
  unfold stepRow
  rw [if_neg (Nat.not_lt.mpr hge), hmap]
  simp only [post_to_api, hexn]

theorem stepRow_upload_fail (ctx : RunCtx) (i : Nat) (row : List Cell)
    (st : RunState) (p : Payload) (s : Nat) (b : String)
    (hge : ctx.start_row ≤ i) (hmap : mapRow ctx.upload_type row = .ok (some p))
    (hresp : ∀ ep hd pl, ctx.http i ep hd pl = HttpResult.resp s b)
    (hbad : ¬(200 ≤ s ∧ s < 300)) :
    stepRow ctx i row st = .ok { st with
      row_count := st.row_count + 1
      fail_count := st.fail_count + 1
      logs := st.logs ++ [sendLine ctx.upload_type i row, failLine i s b]
      attempts := st.attempts + 1 } := by
  unfold stepRow
  rw [if_neg (Nat.not_lt.mpr hge), hmap]
  simp only [post_to_api, hresp]
  rw [if_neg hbad]

theorem runLoop_cons_ok (ctx : RunCtx) (i : Nat) (row : List Cell)
    (rest : List (List Cell)) (st st1 : RunState)
    (h : stepRow ctx i row st = .ok st1) :
    runLoop ctx i (row :: rest) st = runLoop ctx (i + 1) rest st1 := by
  simp only [runLoop, h]

theorem runLoop_cons_error (ctx : RunCtx) (i : Nat) (row : List Cell)
    (rest : List (List Cell)) (st : RunState) (e : Unit)
    (h : stepRow ctx i row st = .error e) :
    runLoop ctx i (row :: rest) st = .error e := by
  simp only [runLoop, h]

-- ---------- demo inputs used by the witness theorems ----------

def demoAuth : AuthHttpResult := .ok ⟨200, [("token", "t")]⟩

def demoHttp : Nat → String → String → Payload → HttpResult :=
  fun _ _ _ _ => .resp 200 "ok"

def demoUserRow : List Cell :=
  [Cell.str "a@b.c", Cell.str "Ann", Cell.num 5551234567, Cell.blank, Cell.blank, Cell.blank]

def demoHeaderRow : List Cell :=
  [Cell.str "Email", Cell.str "Full Name", Cell.str "Phone", Cell.str "Job Title",
   Cell.str "Internal Identifier", Cell.str "Demo Project ID"]

def demoRows : List (List Cell) := [demoHeaderRow, demoUserRow]

def demoCtx : RunCtx := ⟨"t", "Users", "u", "p", "e", demoHttp, 2⟩

def demoFinal : RunState :=
  ⟨1, 1, 0, [sendLine "Users" 2 demoUserRow, successLine 2 200], 1⟩

def blankUserRow : List Cell :=
  [Cell.blank, Cell.blank, Cell.blank, Cell.blank, Cell.blank, Cell.blank]

-- ---------- the claims ----------

/-- C1: for every run that reaches completion, the final counters satisfy
`succeeded + failed = rowsProcessed`; moreover a pre-start row and a skipped
row leave the run state (all three counters, the log, and the attempts
counter) completely unchanged. -/
theorem C1_counters_invariant :
    (∀ (ut : String) (authResp : AuthHttpResult)
       (http : Nat → String → String → Payload → HttpResult)
       (ue pe ee : String) (sr : Nat) (rows : List (List Cell)) (st : RunState),
       runUpload ut authResp http ue pe ee sr rows = .completed st →
       st.success_count + st.fail_count = st.row_count) ∧
    (∀ (ctx : RunCtx) (i : Nat) (row : List Cell) (st : RunState),
       i < ctx.start_row → stepRow ctx i row st = .ok st) ∧
    (∀ (ctx : RunCtx) (i : Nat) (row : List Cell) (st : RunState),
       ctx.start_row ≤ i → mapRow ctx.upload_type row = .ok none →
       stepRow ctx i row st = .ok st) := by
  refine ⟨?_, ?_, ?_⟩
  · intro ut authResp http ue pe ee sr rows st h
    unfold runUpload at h
    cases hTok : get_token authResp with
    | error e => rw [hTok] at h; cases h
    | ok token =>
      rw [hTok] at h
      cases hLoop : runLoop ⟨token, ut, ue, pe, ee, http, sr⟩ 1 rows initState with
      | error e => simp [hLoop] at h
      | ok stFin =>
        simp only [hLoop] at h
        cases h
        exact runLoop_inv _ _ _ _ _ hLoop rfl
  · exact stepRow_pre
  · exact stepRow_skip

/-- Witness for C1 on a concrete completed run (one header row skipped, one
user row uploaded successfully) plus concrete pre-start and skipped rows. -/
theorem C1_counters_invariant_witness :
    demoFinal.success_count + demoFinal.fail_count = demoFinal.row_count ∧
    stepRow demoCtx 1 demoHeaderRow initState = .ok initState ∧
    stepRow demoCtx 2 blankUserRow initState = .ok initState :=
  ⟨C1_counters_invariant.1 "Users" demoAuth demoHttp "u" "p" "e" 2 demoRows demoFinal rfl,
   C1_counters_invariant.2.1 demoCtx 1 demoHeaderRow initState (by decide),
   C1_counters_invariant.2.2 demoCtx 2 blankUserRow initState (by decide) rfl⟩

/-- The payload the Users mapper produces from `demoUserRow`. -/
def demoUserPayload : Payload :=
  .user ⟨Cell.str "Ann", Cell.str "", "5551234567", Cell.str "a@b.c", "",
         ["safetymanager"], []⟩

/-- A run context whose network raises on every upload call. -/
def exnCtx : RunCtx := ⟨"t", "Users", "u", "p", "e", fun _ _ _ _ => .exn, 1⟩

/-- A run context whose network answers 500 "server error" to every upload. -/
def ctx500 : RunCtx :=
  ⟨"t", "Users", "u", "p", "e", fun _ _ _ _ => .resp 500 "server error", 1⟩

/-- C2 counterexample: with valid authentication and a network that would
answer 200 to everything, a Users run whose first data row has a single cell
raises an uncaught IndexError in the row-to-payload mapping (the column reads
sit outside the try/except), aborting the run: the well-formed second row is
never reached, the exception is neither logged nor counted as a failure.
This refutes the claim that every per-row exception is caught and iteration
continues. -/
theorem C2_counterexample :
    runUpload "Users" demoAuth demoHttp "u" "p" "e" 1
      [[Cell.str "a"], demoUserRow] = RunOutcome.rowException := rfl

/-- C2 (amended): an exception raised by the upload call is caught, appended
to the log as a failure line, counted as a failure, and iteration continues
with the next row; an exception raised during row-to-payload mapping,
however, is not caught and aborts the loop, because the column reads and the
skip check sit outside the try/except. -/
theorem C2_row_exception_handling :
    (∀ (ctx : RunCtx) (i : Nat) (row : List Cell) (rest : List (List Cell))
       (st : RunState) (p : Payload),
       ctx.start_row ≤ i → mapRow ctx.upload_type row = .ok (some p) →
       (∀ ep hd pl, ctx.http i ep hd pl = HttpResult.exn) →
       runLoop ctx i (row :: rest) st =
         runLoop ctx (i + 1) rest { st with
           row_count := st.row_count + 1
           fail_count := st.fail_count + 1
           logs := st.logs ++ [sendLine ctx.upload_type i row, exnLine ctx.upload_type i]
           attempts := st.attempts + 1 }) ∧
    (∀ (ctx : RunCtx) (i : Nat) (row : List Cell) (rest : List (List Cell))
       (st : RunState) (e : Unit),
       ctx.start_row ≤ i → mapRow ctx.upload_type row = .error e →
       runLoop ctx i (row :: rest) st = .error e) := by
  constructor
  · intro ctx i row rest st p hge hmap hexn
    exact runLoop_cons_ok _ _ _ _ _ _ (stepRow_upload_exn _ _ _ _ _ hge hmap hexn)
  · intro ctx i row rest st e hge hmap
    exact runLoop_cons_error _ _ _ _ _ _ (stepRow_map_error _ _ _ _ _ hge hmap)

/-- Witness for C2: a raised upload call on a concrete user row is counted as
one failure and the loop moves on; a concrete one-cell row aborts the loop. -/
theorem C2_row_exception_handling_witness :
    runLoop exnCtx 1 [demoUserRow] initState =
      runLoop exnCtx 2 []
        ⟨1, 0, 1, [sendLine "Users" 1 demoUserRow, exnLine "Users" 1], 1⟩ ∧
    runLoop exnCtx 1 [[Cell.str "a"]] initState = .error () :=
  ⟨C2_row_exception_handling.1 exnCtx 1 demoUserRow [] initState demoUserPayload
      (by decide) rfl (fun _ _ _ => rfl),
   C2_row_exception_handling.2 exnCtx 1 [Cell.str "a"] [] initState ()
      (by decide) rfl⟩

/-- C3 counterexample: a Users row whose email cell holds the empty string —
an "empty" required cell — is NOT skipped: the mapper produces a payload for
it (and the loop would then upload and count it).  This refutes the claim
that every row with an absent or empty required cell yields no payload. -/
theorem C3_counterexample :
    mapRow "Users" [Cell.str "", Cell.blank, Cell.blank, Cell.blank, Cell.blank, Cell.blank] =
      .ok (some (Payload.user ⟨Cell.str "", Cell.str "", "", Cell.str "", "",
        ["safetymanager"], []⟩)) := rfl

/-- C3 (amended): a Users row is skipped iff its email cell is `None` (an
empty-string email is not skipped); a Projects (resp. Employer Profiles) row
is skipped iff all seven (resp. eight, the eighth defaulting to `None` on a
short row) cells are Python-falsy, i.e. absent, the empty string, or the
number 0; a skipped row leaves the run state untouched, and every mapped row
is counted once, uploaded once, and classified as exactly one of success or
failure. -/
theorem C3_skip_rules :
    (∀ (a b c d e f : Cell) (rest : List Cell),
       mapUserRow (a :: b :: c :: d :: e :: f :: rest) = .ok none ↔ a = Cell.blank) ∧
    (∀ (a b c d e f g : Cell) (rest : List Cell),
       mapProjectRow (a :: b :: c :: d :: e :: f :: g :: rest) = .ok none ↔
         (a.truthy || b.truthy || c.truthy || d.truthy || e.truthy || f.truthy ||
           g.truthy) = false) ∧
    (∀ (a b c d e f g h8 : Cell) (rest : List Cell),
       mapEmployerRow (a :: b :: c :: d :: e :: f :: g :: h8 :: rest) = .ok none ↔
         (a.truthy || b.truthy || c.truthy || d.truthy || e.truthy || f.truthy ||
           g.truthy || h8.truthy) = false) ∧
    (∀ (a b c d e f g : Cell),
       mapEmployerRow [a, b, c, d, e, f, g] = .ok none ↔
         (a.truthy || b.truthy || c.truthy || d.truthy || e.truthy || f.truthy ||
           g.truthy) = false) ∧
    (∀ (ctx : RunCtx) (i : Nat) (row : List Cell) (st : RunState),
       ctx.start_row ≤ i → mapRow ctx.upload_type row = .ok none →
       stepRow ctx i row st = .ok st) ∧
    (∀ (ctx : RunCtx) (i : Nat) (row : List Cell) (st st1 : RunState) (p : Payload),
       ctx.start_row ≤ i → mapRow ctx.upload_type row = .ok (some p) →
       stepRow ctx i row st = .ok st1 →
       st1.attempts = st.attempts + 1 ∧ st1.row_count = st.row_count + 1 ∧
         st1.success_count + st1.fail_count = st.success_count + st.fail_count + 1) := by
  refine ⟨?_, ?_, ?_, ?_, stepRow_skip, ?_⟩
  · intro a b c d e f rest
    by_cases hb : a = Cell.blank
    · simp [mapUserRow, rowGet, ok_bind, pure_eq_ok, hb]
    · simp [mapUserRow, rowGet, ok_bind, pure_eq_ok, hb]
  · intro a b c d e f g rest
    by_cases hb : (a.truthy || b.truthy || c.truthy || d.truthy || e.truthy ||
        f.truthy || g.truthy) = false
    · simp_all [mapProjectRow, rowGet, ok_bind, pure_eq_ok]
    · simp_all [mapProjectRow, rowGet, ok_bind, pure_eq_ok]
  · intro a b c d e f g h8 rest
    by_cases hb : (a.truthy || b.truthy || c.truthy || d.truthy || e.truthy ||
        f.truthy || g.truthy || h8.truthy) = false
    · simp_all [mapEmployerRow, rowGet, rowGetD, ok_bind, pure_eq_ok]
    · simp_all [mapEmployerRow, rowGet, rowGetD, ok_bind, pure_eq_ok]
  · intro a b c d e f g
    by_cases hb : (a.truthy || b.truthy || c.truthy || d.truthy || e.truthy ||
        f.truthy || g.truthy) = false
    · simp_all [mapEmployerRow, rowGet, rowGetD, ok_bind, pure_eq_ok, Cell.truthy]
    · simp_all [mapEmployerRow, rowGet, rowGetD, ok_bind, pure_eq_ok, Cell.truthy]
  · intro ctx i row st st1 p hge hmap h
    exact stepRow_counts ctx i row st st1 p hge hmap h

/-- Witness for C3 on concrete rows: a blank-email user row is skipped and
leaves the state untouched; a populated user row is counted and uploaded
exactly once. -/
theorem C3_skip_rules_witness :
    (mapUserRow blankUserRow = .ok none ↔ Cell.blank = Cell.blank) ∧
    stepRow demoCtx 2 blankUserRow initState = .ok initState ∧
    (demoFinal.attempts = initState.attempts + 1 ∧
      demoFinal.row_count = initState.row_count + 1 ∧
      demoFinal.success_count + demoFinal.fail_count =
        initState.success_count + initState.fail_count + 1) :=
  ⟨C3_skip_rules.1 Cell.blank Cell.blank Cell.blank Cell.blank Cell.blank Cell.blank [],
   C3_skip_rules.2.2.2.2.1 demoCtx 2 blankUserRow initState (by decide) rfl,
   C3_skip_rules.2.2.2.2.2 demoCtx 2 demoUserRow initState demoFinal demoUserPayload
      (by decide) rfl rfl⟩

/-- C4: the uploader does not raise on a non-2xx response — it hands back the
raw status code and body — and a 500 response in the run loop is classified
as a failure: `failed` goes up by exactly one, `succeeded` is untouched, and
the loop continues with the next row. -/
theorem C4_non2xx_returned_and_classified :
    (∀ (token : String) (payload : Payload) (ut ue pe ee : String)
       (http : String → String → Payload → HttpResult) (s : Nat) (b : String),
       http (select_endpoint ut ue pe ee) ("Bearer " ++ token) payload = .resp s b →
       post_to_api token payload ut ue pe ee http = .ok (s, b)) ∧
    (∀ (ctx : RunCtx) (i : Nat) (row : List Cell) (rest : List (List Cell))
       (st : RunState) (p : Payload),
       ctx.start_row ≤ i → mapRow ctx.upload_type row = .ok (some p) →
       (∀ ep hd pl, ctx.http i ep hd pl = HttpResult.resp 500 "server error") →
       runLoop ctx i (row :: rest) st =
         runLoop ctx (i + 1) rest { st with
           row_count := st.row_count + 1
           fail_count := st.fail_count + 1
           logs := st.logs ++ [sendLine ctx.upload_type i row,
                               failLine i 500 "server error"]
           attempts := st.attempts + 1 }) := by
  constructor
  · intro token payload ut ue pe ee http s b hre
    simp only [post_to_api, hre]
  · intro ctx i row rest st p hge hmap hresp
    exact runLoop_cons_ok _ _ _ _ _ _
      (stepRow_upload_fail _ _ _ _ _ 500 "server error" hge hmap hresp (by decide))

/-- Witness for C4: a concrete 500 response is returned raw by the uploader,
and on a concrete user row it increments `failed` to 1 while `succeeded`
stays 0, the loop moving on to the rest of the rows. -/
theorem C4_non2xx_returned_and_classified_witness :
    post_to_api "t" demoUserPayload "Users" "u" "p" "e"
      (fun _ _ _ => .resp 500 "server error") = .ok (500, "server error") ∧
    runLoop ctx500 1 [demoUserRow] initState =
      runLoop ctx500 2 []
        ⟨1, 0, 1, [sendLine "Users" 1 demoUserRow, failLine 1 500 "server error"], 1⟩ :=
  ⟨C4_non2xx_returned_and_classified.1 "t" demoUserPayload "Users" "u" "p" "e"
      (fun _ _ _ => .resp 500 "server error") 500 "server error" rfl,
   C4_non2xx_returned_and_classified.2 ctx500 1 demoUserRow [] initState
      demoUserPayload (by decide) rfl (fun _ _ _ => rfl)⟩

/-- C5 counterexample: `r.raise_for_status()` only raises for statuses in
400-599, so a 304 response (non-2xx) whose body carries a token makes
`get_token` succeed rather than fail.  This refutes the claim that any
non-2xx response status fails authentication. -/
theorem C5_counterexample :
    get_token (AuthHttpResult.ok ⟨304, [("token", "tok")]⟩) = .ok "tok" ∧
    ¬(200 ≤ 304 ∧ 304 < 300) := ⟨rfl, by decide⟩

/-- C5 (amended): authentication fails when the HTTP call raises, when the
status is in 400-599 (the statuses `raise_for_status` raises on), or when the
parsed body lacks a `"token"` key; and whenever `get_token` fails, the run
stops immediately with the authentication error — no row is processed and no
upload is attempted. -/
theorem C5_auth_failure_stops_run :
    (get_token AuthHttpResult.exn = .error "requests exception") ∧
    (∀ r : AuthHttpResponse, 400 ≤ r.status → r.status < 600 →
       get_token (.ok r) = .error "HTTPError") ∧
    (∀ r : AuthHttpResponse, ¬(400 ≤ r.status ∧ r.status < 600) →
       r.json.lookup "token" = none →
       get_token (.ok r) = .error "No token found in response. Check credentials / tenant.") ∧
    (∀ (ut : String) (resp : AuthHttpResult)
       (http : Nat → String → String → Payload → HttpResult)
       (ue pe ee : String) (sr : Nat) (rows : List (List Cell)) (e : String),
       get_token resp = .error e →
       runUpload ut resp http ue pe ee sr rows = .authFailed e) := by
  refine ⟨rfl, ?_, ?_, ?_⟩
  · intro r h4 h6
    simp [get_token, h4, h6]
  · intro r hst htok
    simp [get_token, hst, htok]
  · intro ut resp http ue pe ee sr rows e h
    unfold runUpload
    rw [h]

/-- Witness for C5: a concrete 401 auth response fails with `HTTPError`, a
concrete token-less 200 body fails with the missing-token message, and a
whole run against the 401 response ends in `authFailed`, touching no row. -/
theorem C5_auth_failure_stops_run_witness :
    get_token (.ok ⟨401, []⟩) = .error "HTTPError" ∧
    get_token (.ok ⟨200, [("detail", "x")]⟩) =
      .error "No token found in response. Check credentials / tenant." ∧
    runUpload "Users" (.ok ⟨401, []⟩) demoHttp "u" "p" "e" 2 demoRows =
      .authFailed "HTTPError" :=
  ⟨C5_auth_failure_stops_run.2.1 ⟨401, []⟩ (by decide) (by decide),
   C5_auth_failure_stops_run.2.2.1 ⟨200, [("detail", "x")]⟩ (by decide) rfl,
   C5_auth_failure_stops_run.2.2.2 "Users" (.ok ⟨401, []⟩) demoHttp "u" "p" "e" 2
      demoRows "HTTPError" rfl⟩

/-- C6: a non-skipped Users row maps to exactly the payload the source builds
— `name`/`title`/`email` via the `x or ""` idiom, `mobile` and
`internalIdentifier` via `str(x) if x is not None else ""`, the constant
`roleNames`, and `userProjectIds` as a one-element list when the project-id
cell is present — and in particular a numeric phone cell 5551234567 becomes
the string "5551234567" and absent string fields become the empty string. -/
theorem C6_user_payload (ec nm mb tl ii pj : Cell) (rest : List Cell)
    (he : ec ≠ Cell.blank) :
    mapRow "Users" (ec :: nm :: mb :: tl :: ii :: pj :: rest) =
      .ok (some (Payload.user {
        name := orEmpty nm
        title := orEmpty tl
        mobile := strIfPresent mb
        email := orEmpty ec
        internalIdentifier := strIfPresent ii
        roleNames := ["safetymanager"]
        userProjectIds := if pj = Cell.blank then [] else [pj] })) ∧
    strIfPresent (Cell.num 5551234567) = "5551234567" ∧
    strIfPresent Cell.blank = "" ∧
    orEmpty Cell.blank = Cell.str "" := by
  refine ⟨?_, by decide, rfl, rfl⟩
  simp [mapRow, mapUserRow, rowGet, ok_bind, pure_eq_ok, he]

/-- Witness for C6 on a concrete row whose phone cell holds the number
5551234567. -/
theorem C6_user_payload_witness :
    mapRow "Users" demoUserRow = .ok (some demoUserPayload) ∧
    strIfPresent (Cell.num 5551234567) = "5551234567" ∧
    strIfPresent Cell.blank = "" ∧
    orEmpty Cell.blank = Cell.str "" :=
  C6_user_payload (Cell.str "a@b.c") (Cell.str "Ann") (Cell.num 5551234567)
    Cell.blank Cell.blank Cell.blank [] (by decide)

/-- C7: a non-skipped Projects row with all seven columns populated maps to
the payload with `isArchived = false`, the seven cells assigned in the fixed
column order (name, country, siteAddress, timeZoneString, state, internalId,
regionId), and the hard-coded `siteTiming` schedule: exactly 7 entries,
Wednesday through Tuesday, each 07:00:00-17:00:00. -/
theorem C7_project_payload (a b c d e f g : Cell) (rest : List Cell)
    (ha : a.truthy = true) (hb : b.truthy = true) (hc : c.truthy = true)
    (hd : d.truthy = true) (he : e.truthy = true) (hf : f.truthy = true)
    (hg : g.truthy = true) :
    mapRow "Projects" (a :: b :: c :: d :: e :: f :: g :: rest) =
      .ok (some (Payload.project {
        isArchived := false
        name := a
        siteAddress := c
        regionId := g
        state := e
        timeZoneString := d
        country := b
        internalIdentifier := f
        siteTiming := fixedSiteTiming })) ∧
    fixedSiteTiming.length = 7 ∧
    fixedSiteTiming.map SiteTimingEntry.dayOfWeek =
      ["Wednesday", "Thursday", "Friday", "Saturday", "Sunday", "Monday", "Tuesday"] ∧
    (∀ entry ∈ fixedSiteTiming,
       entry.startTime = "07:00:00" ∧ entry.endTime = "17:00:00") := by
  refine ⟨?_, rfl, rfl, by decide⟩
  simp [mapRow, mapProjectRow, rowGet, ok_bind, pure_eq_ok, ha]

def demoProjectRow : List Cell :=
  [Cell.str "P1", Cell.str "Australia", Cell.str "1 Main St",
   Cell.str "AUS Eastern Standard Time", Cell.str "VIC", Cell.num 42, Cell.num 7]

/-- Witness for C7 on a concrete fully-populated project row. -/
theorem C7_project_payload_witness :
    mapRow "Projects" demoProjectRow =
      .ok (some (Payload.project
        ⟨false, Cell.str "P1", Cell.str "1 Main St", Cell.num 7, Cell.str "VIC",
         Cell.str "AUS Eastern Standard Time", Cell.str "Australia", Cell.num 42,
         fixedSiteTiming⟩)) ∧
    fixedSiteTiming.length = 7 ∧
    fixedSiteTiming.map SiteTimingEntry.dayOfWeek =
      ["Wednesday", "Thursday", "Friday", "Saturday", "Sunday", "Monday", "Tuesday"] ∧
    (∀ entry ∈ fixedSiteTiming,
       entry.startTime = "07:00:00" ∧ entry.endTime = "17:00:00") :=
  C7_project_payload (Cell.str "P1") (Cell.str "Australia") (Cell.str "1 Main St")
    (Cell.str "AUS Eastern Standard Time") (Cell.str "VIC") (Cell.num 42) (Cell.num 7)
    [] (by decide) (by decide) (by decide) (by decide) (by decide) (by decide) (by decide)

/-- C8: an Employer Profiles row with fewer than 8 cells that maps to a
payload (so it has exactly 7 cells, since shorter rows raise) gets
`internalIdentifier = ""` (the missing 8th column defaults to `None`, which
`str(x) if x is not None else ""` turns into the empty string) and an
`addresses` list with exactly one element. -/
theorem C8_employer_short_row (row : List Cell) (p : EmployerPayload)
    (hlen : row.length < 8)
    (h : mapRow "Employer Profiles" row = .ok (some (Payload.employer p))) :
    p.internalIdentifier = "" ∧ p.addresses.length = 1 := by
  rcases row with _ | ⟨a, _ | ⟨b, _ | ⟨c, _ | ⟨d, _ | ⟨e, _ | ⟨f, _ | ⟨g, rest⟩⟩⟩⟩⟩⟩⟩
  · simp [mapRow, mapEmployerRow, rowGet, ok_bind, error_bind, pure_eq_ok] at h
  · simp [mapRow, mapEmployerRow, rowGet, ok_bind, error_bind, pure_eq_ok] at h
  · simp [mapRow, mapEmployerRow, rowGet, ok_bind, error_bind, pure_eq_ok] at h
  · simp [mapRow, mapEmployerRow, rowGet, ok_bind, error_bind, pure_eq_ok] at h
  · simp [mapRow, mapEmployerRow, rowGet, ok_bind, error_bind, pure_eq_ok] at h
  · simp [mapRow, mapEmployerRow, rowGet, ok_bind, error_bind, pure_eq_ok] at h
  · simp [mapRow, mapEmployerRow, rowGet, ok_bind, error_bind, pure_eq_ok] at h
  · rcases rest with _ | ⟨h8, rest2⟩
    · rw [show mapRow "Employer Profiles" [a, b, c, d, e, f, g] =
          mapEmployerRow [a, b, c, d, e, f, g] from rfl] at h
      unfold mapEmployerRow at h
      simp only [rowGet, rowGetD, ok_bind, pure_eq_ok] at h
      split at h
      · simp at h
      · simp only [Except.ok.injEq, Option.some.injEq, Payload.employer.injEq] at h
        subst h
        exact ⟨rfl, rfl⟩
    · exfalso
      simp [List.length] at hlen
      omega

def demoEmployerPayload : EmployerPayload :=
  ⟨Cell.str "Acme", "",
   [⟨"Physical", Cell.str "", Cell.str "", Cell.str "", "", Cell.str ""⟩], ""⟩

/-- Witness for C8 on a concrete 7-cell employer row. -/
theorem C8_employer_short_row_witness :
    demoEmployerPayload.internalIdentifier = "" ∧
    demoEmployerPayload.addresses.length = 1 :=
  C8_employer_short_row
    [Cell.str "Acme", Cell.blank, Cell.blank, Cell.blank, Cell.blank, Cell.blank,
     Cell.blank]
    demoEmployerPayload (by decide) rfl

/-- C9: the row mapper is a pure function of the upload type and the row
alone — in this embedding it takes no other argument (no token, no counters,
no network), so evaluating it twice on equal inputs yields equal results by
congruence: the same row and upload type always produce the identical
payload. -/
theorem C9_mapper_deterministic (ut : String) (r1 r2 : List Cell) (h : r1 = r2) :
    mapRow ut r1 = mapRow ut r2 := by
  rw [h]

/-- Witness for C9 on a concrete row. -/
theorem C9_mapper_deterministic_witness :
    mapRow "Users" demoUserRow = mapRow "Users" demoUserRow :=
  C9_mapper_deterministic "Users" demoUserRow demoUserRow rfl

/-- C10: `get_endpoints` is total and its final branch is a catch-all: every
region string other than exactly "North America" and "Asia/Australia/NZ" —
including misspelled or unexpected values — yields the EU auth endpoint and
EU API base. -/
theorem C10_region_default (region : String)
    (h1 : region ≠ "North America") (h2 : region ≠ "Asia/Australia/NZ") :
    get_endpoints region =
      ("https://eu-auth.hammertechonline.com/api/login/generatetoken",
       "https://eu-api.hammertechonline.com/api/v1") := by
  simp [get_endpoints, h1, h2]

/-- Witness for C10 on a misspelled region string. -/
theorem C10_region_default_witness :
    get_endpoints "Europe / UK" =
      ("https://eu-auth.hammertechonline.com/api/login/generatetoken",
       "https://eu-api.hammertechonline.com/api/v1") :=
  C10_region_default "Europe / UK" (by decide) (by decide)

end HammerTech
